import Mathlib

/-!
# Verification of the M365 mailbox backup pipeline

A shallow embedding, in Lean 4, of the collection-and-deduplication pipeline of
the `m365_backup` Python package:

* `src/m365_backup/db.py` — content hashing (`compute_hash`) and snapshot
  persistence (`store_snapshot`);
* `src/m365_backup/main.py` — quota-limited mailbox pagination
  (`backup_mailbox`) and per-tenant collection (`backup_tenant`);
* `src/m365_backup/tasks.py` — the Celery task `backup_tenant_async` and its
  retry configuration;
* `src/m365_backup/web.py` — the batch trigger endpoint (`trigger_backup`) and
  the task-status endpoints (`get_backup_status`, `stream_backup_status`).

Python dictionaries holding JSON data are modelled by the mutually inductive
`Value`/`ValueList`/`Fields` types below; machine-level concerns (HTTP
transport, file writes, logging) that do not influence the verified values are
not part of the state.
-/

set_option autoImplicit false

namespace M365

mutual

/-- JSON-like values, as processed by Python's `json` module.  Floating-point
numbers do not occur in the fields the pipeline inspects and are omitted;
`json.dumps(..., default=str)` only affects values that are not
JSON-serializable, which cannot arise for this type. -/
inductive Value where
  | null
  | bool (b : Bool)
  | int (n : Int)
  | str (s : String)
  | arr (elems : ValueList)
  | obj (fields : Fields)
  deriving DecidableEq

/-- The elements of a JSON array. -/
inductive ValueList where
  | nil
  | cons (head : Value) (tail : ValueList)
  deriving DecidableEq

/-- The key/value bindings of a JSON object (a Python dict decoded from JSON;
keys are unique and bindings keep the dict's insertion order). -/
inductive Fields where
  | nil
  | cons (key : String) (val : Value) (tail : Fields)
  deriving DecidableEq

end

/-- A JSON object / Python dict; a message payload is one of these. -/
abbrev Payload := Fields

/-- Lowercase hexadecimal digit. -/
def hexDigit (n : Nat) : Char :=
  if n < 10 then Char.ofNat (48 + n) else Char.ofNat (87 + n)

/-- Four-digit lowercase hexadecimal rendering of `n % 2^16`, as used by
Python's `\uXXXX` escapes. -/
def hex4 (n : Nat) : String :=
  String.mk [hexDigit (n / 4096 % 16), hexDigit (n / 256 % 16),
             hexDigit (n / 16 % 16), hexDigit (n % 16)]

/-- Escape one character the way `json.dumps` (with its default
`ensure_ascii=True`) does: printable ASCII other than quote and backslash is
kept, short escapes for the common control characters, `\uXXXX` otherwise,
with surrogate pairs above the basic multilingual plane. -/
def escapeChar (c : Char) : String :=
  let n := c.toNat
  if c = '"' then "\\\""
  else if c = '\\' then "\\\\"
  else if c = '\n' then "\\n"
  else if c = '\t' then "\\t"
  else if c = '\r' then "\\r"
  else if n = 8 then "\\b"
  else if n = 12 then "\\f"
  else if 32 ≤ n ∧ n ≤ 126 then String.mk [c]
  else if n < 65536 then "\\u" ++ hex4 n
  else
    let m := n - 65536
    "\\u" ++ hex4 (55296 + m / 1024) ++ "\\u" ++ hex4 (56320 + m % 1024)

/-- Rendering of a string literal by `json.dumps`. -/
def dumpsStr (s : String) : String :=
  "\"" ++ String.join (s.data.map escapeChar) ++ "\""

/-- Lexicographic code-point comparison of character lists: Python compares
`str` values code point by code point. -/
def charListLe : List Char → List Char → Bool
  | [], _ => true
  | _ :: _, [] => false
  | a :: as, b :: bs =>
      if a.toNat < b.toNat then true
      else if b.toNat < a.toNat then false
      else charListLe as bs

/-- Python's `s1 <= s2` on strings. -/
def keyLe (a b : String) : Bool := charListLe a.data b.data

/-- Insert a rendered key/value pair into a list sorted by key (stable:
a pair whose key equals an existing key goes in front of it, as in Python's
stable sort — irrelevant in practice since dict keys are unique). -/
def insertByKey (p : String × String) : List (String × String) → List (String × String)
  | [] => [p]
  | q :: rest => if keyLe p.1 q.1 then p :: q :: rest else q :: insertByKey p rest

/-- Stable insertion sort of rendered key/value pairs by key, modelling
`sort_keys=True` (Python sorts `str` keys by code point). -/
def sortByKey : List (String × String) → List (String × String)
  | [] => []
  | p :: rest => insertByKey p (sortByKey rest)

mutual

/-- Models `json.dumps(v, sort_keys=True, default=str)` with the default separators
`", "` and `": "`: arrays keep their order, objects are rendered with keys
sorted lexicographically (recursively). -/
def dumps : Value → String
  | .null => "null"
  | .bool true => "true"
  | .bool false => "false"
  | .int n => toString n
  | .str s => dumpsStr s
  | .arr elems => "[" ++ String.intercalate ", " (dumpsElems elems) ++ "]"
  | .obj fields =>
      "\x7b" ++
        String.intercalate ", "
          ((sortByKey (renderFields fields)).map
            (fun kv => dumpsStr kv.1 ++ ": " ++ kv.2)) ++
      "\x7d"
  termination_by structural v => v

/-- Renders each array element. -/
def dumpsElems : ValueList → List String
  | .nil => []
  | .cons v tl => dumps v :: dumpsElems tl
  termination_by structural l => l

/-- Renders each object binding to `(key, rendered value)`. -/
def renderFields : Fields → List (String × String)
  | .nil => []
  | .cons k v tl => (k, dumps v) :: renderFields tl
  termination_by structural l => l

end

/-- Python `message.get(k)` on a JSON-decoded dict: the bound value, or Python
`None` (= JSON `null`) when the key is absent. -/
def pyGet (m : Fields) (k : String) : Value :=
  match m with
  | .nil => .null
  | .cons key v tl => if key = k then v else pyGet tl k

/-- The identity-relevant keys selected by `compute_hash`
(`db.py`, line 85). -/
def hashKeys : List String := ["subject", "from", "to", "cc", "bcc", "receivedDateTime"]

/-- The reduced record `rep = \x7bk: message.get(k) for k in keys\x7d`
(`db.py`, line 86), with the comprehension over `hashKeys` unrolled. -/
def reducedRecord (m : Payload) : Value :=
  .obj (.cons "subject" (pyGet m "subject")
       (.cons "from" (pyGet m "from")
       (.cons "to" (pyGet m "to")
       (.cons "cc" (pyGet m "cc")
       (.cons "bcc" (pyGet m "bcc")
       (.cons "receivedDateTime" (pyGet m "receivedDateTime") .nil))))))

/-- The function `compute_hash` (`db.py`, lines 83–88): serialize the reduced record with
sorted keys and apply `hashlib.sha256(...).hexdigest()` to the UTF-8 bytes.
The SHA-256 digest is a fixed pure function of the serialized string; it is
abstracted as the parameter `digest`, and every theorem below holds for an
arbitrary digest function — in particular for SHA-256. -/
def compute_hash (digest : String → String) (m : Payload) : String :=
  digest (dumps (reducedRecord m))

/-! ## The message store (`db.py`) -/

/-- Escape one character as `json.dumps(..., ensure_ascii=False)` does:
only the quote, the backslash and control characters are escaped; everything
else (including non-ASCII) is kept verbatim. -/
def escapeCharRaw (c : Char) : String :=
  let n := c.toNat
  if c = '"' then "\\\""
  else if c = '\\' then "\\\\"
  else if c = '\n' then "\\n"
  else if c = '\t' then "\\t"
  else if c = '\r' then "\\r"
  else if n = 8 then "\\b"
  else if n = 12 then "\\f"
  else if n < 32 then "\\u" ++ hex4 n
  else String.mk [c]

/-- String literal rendering for `json.dumps(..., ensure_ascii=False)`. -/
def dumpsStrRaw (s : String) : String :=
  "\"" ++ String.join (s.data.map escapeCharRaw) ++ "\""

mutual

/-- Models `json.dumps(v, ensure_ascii=False)` with default separators and without
`sort_keys`: object bindings keep their insertion order.  Used for the
`raw_json` column (`db.py`, line 133). -/
def dumpsRaw : Value → String
  | .null => "null"
  | .bool true => "true"
  | .bool false => "false"
  | .int n => toString n
  | .str s => dumpsStrRaw s
  | .arr elems => "[" ++ String.intercalate ", " (dumpsRawElems elems) ++ "]"
  | .obj fields =>
      "\x7b" ++
        String.intercalate ", "
          ((renderRawFields fields).map (fun kv => dumpsStrRaw kv.1 ++ ": " ++ kv.2)) ++
      "\x7d"
  termination_by structural v => v

/-- Renders each array element (unsorted variant). -/
def dumpsRawElems : ValueList → List String
  | .nil => []
  | .cons v tl => dumpsRaw v :: dumpsRawElems tl
  termination_by structural l => l

/-- Renders each object binding to `(key, rendered value)` (unsorted variant). -/
def renderRawFields : Fields → List (String × String)
  | .nil => []
  | .cons k v tl => (k, dumpsRaw v) :: renderRawFields tl
  termination_by structural l => l

end

/-- Python `d.get(k, default)` on a dict. -/
def fieldsGetD (m : Fields) (k : String) (d : Value) : Value :=
  match m with
  | .nil => d
  | .cons key v tl => if key = k then v else fieldsGetD tl k d

/-- Python truthiness of a JSON value (`None`, `False`, `0`, `""`, `[]` and
`\x7b\x7d` are falsy). -/
def isTruthy : Value → Bool
  | .null => false
  | .bool b => b
  | .int n => n ≠ 0
  | .str s => s ≠ ""
  | .arr .nil => false
  | .arr (.cons _ _) => true
  | .obj .nil => false
  | .obj (.cons _ _ _) => true

/-- Python `a or b`: the first operand if truthy, the second otherwise. -/
def pyOr (a b : Value) : Value :=
  if isTruthy a then a else b

/-- One element of the `collected` list passed to `store_snapshot`
(`db.py` docstring, line 94, and the reads at lines 105–142): a dict with
keys `tenant`, `user_principal`, `message_id`, `message_json` and optionally
`text_content` and `eml_file_path`.  The first three are read with `.get`
(`None` when absent), `text_content` defaults to the empty dict and
`eml_file_path` to the empty string. -/
structure CollectedItem where
  tenant : Option String
  user_principal : Option String
  message_id : Option String
  message_json : Payload
  text_content : Fields := .nil
  eml_file_path : String := ""
deriving DecidableEq

/-- A row of the `messages` table, with the column values assigned by the
insert at `db.py`, lines 126–144.  `received_src` holds the string that the
code would hand to `datetime.fromisoformat` (after the `Z` replacement the
conversion is a pure datatype change whose failure is swallowed into NULL, so
it cannot influence any behaviour verified here). -/
structure StoredMessage where
  snapshot_id : Nat
  tenant : Option String
  user_principal : Option String
  message_id : Option String
  message_hash : String
  raw_json : String
  eml_file_path : String
  subject : Value
  from_address : Value
  received_src : Value
  body_text : Value
  body_html : Value
  has_attachments : Nat
  attachment_count : Value
  importance : Value
deriving DecidableEq

/-- A row of the `snapshots` table (`db.py`, lines 34–40); `created_at` is a
wall-clock default that no verified behaviour reads. -/
structure Snapshot where
  id : Nat
  label : Option String
deriving DecidableEq

/-- The relational store visible to `store_snapshot`: the two tables, plus
the primary-key counter that yields `inserted_primary_key` for snapshots. -/
structure DbState where
  nextSnapshotId : Nat := 1
  snapshots : List Snapshot := []
  messages : List StoredMessage := []
deriving DecidableEq

/-- The content hash of one collected item: `compute_hash(item["message_json"])`
(`db.py`, line 106). -/
def hashOf (digest : String → String) (item : CollectedItem) : String :=
  compute_hash digest item.message_json

/-- The `messages_table.insert().values(...)` of `db.py`, lines 126–144,
for one collected item. -/
def mkRow (sid : Nat) (mhash : String) (item : CollectedItem) : StoredMessage :=
  let tc := item.text_content
  let mj := item.message_json
  { snapshot_id := sid
    tenant := item.tenant
    user_principal := item.user_principal
    message_id := item.message_id
    message_hash := mhash
    raw_json := dumpsRaw (.obj mj)
    eml_file_path := item.eml_file_path
    subject := fieldsGetD tc "subject" (fieldsGetD mj "subject" (.str ""))
    from_address := fieldsGetD tc "from_address" (.str "")
    received_src := pyOr (pyGet tc "received_datetime") (pyGet mj "receivedDateTime")
    body_text := fieldsGetD tc "body_text" (.str "")
    body_html := fieldsGetD tc "body_html" (.str "")
    has_attachments := if isTruthy (fieldsGetD tc "has_attachments" (.bool false)) then 1 else 0
    attachment_count := fieldsGetD tc "attachment_count" (.int 0)
    importance := fieldsGetD tc "importance" (.str "normal") }

/-- The per-item loop of `store_snapshot` (`db.py`, lines 104–145): for each
item, compute the hash, skip the item when a row with that hash is already
visible (existing committed rows as well as rows inserted earlier in this same
transaction — the session's own uncommitted writes are visible to its
`SELECT`), otherwise insert a new row and count it. -/
def storeLoop (digest : String → String) (sid : Nat) :
    List CollectedItem → List StoredMessage → Nat → List StoredMessage × Nat
  | [], msgs, inserted => (msgs, inserted)
  | item :: rest, msgs, inserted =>
      let mhash := hashOf digest item
      if msgs.any (fun r => r.message_hash = mhash) then
        storeLoop digest sid rest msgs inserted
      else
        storeLoop digest sid rest (msgs ++ [mkRow sid mhash item]) (inserted + 1)

/-- The value returned by `store_snapshot`: the committed store together with
the `(snapshot_id, inserted)` pair of `db.py`, line 147. -/
structure StoreResult where
  db : DbState
  snapshot_id : Nat
  inserted : Nat
deriving DecidableEq

/-- The function `store_snapshot` (`db.py`, lines 91–149), sequential (uncontended) run:
insert one snapshot row with the given label, run the dedup loop over the
collected items, commit. -/
def store_snapshot (digest : String → String) (label : Option String)
    (collected : List CollectedItem) (s : DbState) : StoreResult :=
  { db := { nextSnapshotId := s.nextSnapshotId + 1
            snapshots := s.snapshots ++ [⟨s.nextSnapshotId, label⟩]
            messages := (storeLoop digest s.nextSnapshotId collected s.messages 0).1 }
    snapshot_id := s.nextSnapshotId
    inserted := (storeLoop digest s.nextSnapshotId collected s.messages 0).2 }

/-- The message the storage layer raises when the `uq_message_hash`
uniqueness constraint (`db.py`, line 61) is violated. -/
def uqViolationMsg : String :=
  "IntegrityError: duplicate key value violates unique constraint uq_message_hash"

/-- The per-item loop of `store_snapshot` run concurrently with other
transactions: `ext idx` is the set of message hashes committed by other
sessions between this session's existence check for item `idx` and its
insert.  The check (`db.py`, lines 108–112) sees only `msgs`; the insert's
uniqueness constraint additionally sees `ext idx`, and the source has no
`try/except` around the insert, so a constraint violation escapes the loop. -/
def storeLoopRace (digest : String → String) (sid : Nat) (ext : Nat → List String) :
    Nat → List CollectedItem → List StoredMessage → Nat →
    Except String (List StoredMessage × Nat)
  | _, [], msgs, inserted => .ok (msgs, inserted)
  | idx, item :: rest, msgs, inserted =>
      let mhash := hashOf digest item
      if msgs.any (fun r => r.message_hash = mhash) then
        storeLoopRace digest sid ext (idx + 1) rest msgs inserted
      else if mhash ∈ ext idx then
        .error uqViolationMsg
      else
        storeLoopRace digest sid ext (idx + 1) rest (msgs ++ [mkRow sid mhash item])
          (inserted + 1)

/-- The function `store_snapshot` in the presence of concurrent committers: on a
uniqueness violation the exception propagates out of `store_snapshot` (the
`finally` block only closes the session, rolling the transaction back), so the
call fails and commits nothing. -/
def store_snapshot_concurrent (digest : String → String) (label : Option String)
    (collected : List CollectedItem) (ext : Nat → List String) (s : DbState) :
    Except String StoreResult :=
  let sid := s.nextSnapshotId
  match storeLoopRace digest sid ext 0 collected s.messages 0 with
  | .error e => .error e
  | .ok (msgs, inserted) =>
      .ok { db := { nextSnapshotId := sid + 1
                    snapshots := s.snapshots ++ [⟨sid, label⟩]
                    messages := msgs }
            snapshot_id := sid
            inserted := inserted }

/-- Following the wording of the within-batch deduplication claim, not the
source: the sub-batch of records that create rows — those whose hash occurs
for the first time in the batch and is not among the hashes already `seen` in
the store.  Compared against `store_snapshot` below. -/
def firstFreshOccurrences (digest : String → String) (seen : List String) :
    List CollectedItem → List CollectedItem
  | [] => []
  | item :: rest =>
      let h := hashOf digest item
      if h ∈ seen then firstFreshOccurrences digest seen rest
      else item :: firstFreshOccurrences digest (h :: seen) rest

/-! ## Lemmas about the dedup loop -/

lemma any_hash_eq (msgs : List StoredMessage) (h : String) :
    (msgs.any fun r => r.message_hash = h) = true ↔
      h ∈ msgs.map (fun r => r.message_hash) := by
  simp only [List.any_eq_true, List.mem_map, decide_eq_true_eq]

lemma firstFreshOccurrences_congr (digest : String → String) :
    ∀ (items : List CollectedItem) (seen₁ seen₂ : List String),
      (∀ x, x ∈ seen₁ ↔ x ∈ seen₂) →
      firstFreshOccurrences digest seen₁ items = firstFreshOccurrences digest seen₂ items
  | [], _, _, _ => rfl
  | item :: rest, s₁, s₂, h => by
      unfold firstFreshOccurrences
      by_cases hm : hashOf digest item ∈ s₁
      · rw [if_pos hm, if_pos ((h _).mp hm),
          firstFreshOccurrences_congr digest rest s₁ s₂ h]
      · rw [if_neg hm, if_neg (fun c => hm ((h _).mpr c)),
          firstFreshOccurrences_congr digest rest (hashOf digest item :: s₁)
            (hashOf digest item :: s₂) (fun x => by simp [h x])]

lemma map_hash_mkRow (digest : String → String) (sid : Nat)
    (items : List CollectedItem) :
    (items.map (fun i => mkRow sid (hashOf digest i) i)).map (fun r => r.message_hash)
      = items.map (hashOf digest) := by
  simp only [List.map_map]
  rfl

/-- The dedup loop, characterized against the spec-side
`firstFreshOccurrences`: it appends exactly one row per first-fresh
occurrence, and counts exactly those. -/
lemma storeLoop_spec (digest : String → String) (sid : Nat) :
    ∀ (items : List CollectedItem) (msgs : List StoredMessage) (k : Nat),
      storeLoop digest sid items msgs k =
        (msgs ++ (firstFreshOccurrences digest (msgs.map (fun r => r.message_hash)) items).map
            (fun i => mkRow sid (hashOf digest i) i),
         k + (firstFreshOccurrences digest (msgs.map (fun r => r.message_hash)) items).length)
  | [], msgs, k => by
      simp only [storeLoop, firstFreshOccurrences, List.map_nil, List.append_nil,
        List.length_nil, Nat.add_zero]
  | item :: rest, msgs, k => by
      unfold storeLoop firstFreshOccurrences
      by_cases hm : hashOf digest item ∈ msgs.map (fun r => r.message_hash)
      · rw [if_pos ((any_hash_eq msgs (hashOf digest item)).mpr hm), if_pos hm,
          storeLoop_spec digest sid rest msgs k]
      · rw [if_neg (fun c => hm ((any_hash_eq msgs (hashOf digest item)).mp c)),
          if_neg hm, storeLoop_spec digest sid rest (msgs ++ [mkRow sid (hashOf digest item) item]) (k + 1)]
        have hmaps : (msgs ++ [mkRow sid (hashOf digest item) item]).map (fun r => r.message_hash)
            = msgs.map (fun r => r.message_hash) ++ [hashOf digest item] := by
          simp [mkRow]
        rw [hmaps,
          firstFreshOccurrences_congr digest rest
            (msgs.map (fun r => r.message_hash) ++ [hashOf digest item])
            (hashOf digest item :: msgs.map (fun r => r.message_hash))
            (fun x => by simp [or_comm])]
        simp only [List.map_cons, List.length_cons, Prod.mk.injEq]
        refine ⟨?_, by omega⟩
        simp [List.append_assoc]

lemma card_insert_sdiff {R S : Finset String} {h : String} (hS : h ∉ S) :
    ((insert h R) \ S).card = (R \ insert h S).card + 1 := by
  have he : insert h R \ S = insert h (R \ insert h S) := by
    ext x
    simp only [Finset.mem_sdiff, Finset.mem_insert]
    constructor
    · rintro ⟨hx | hx, hxs⟩
      · exact Or.inl hx
      · by_cases hxh : x = h
        · exact Or.inl hxh
        · exact Or.inr ⟨hx, by simp [hxh, hxs]⟩
    · rintro (hx | ⟨hx, hxs⟩)
      · exact ⟨Or.inl hx, hx ▸ hS⟩
      · exact ⟨Or.inr hx, fun c => hxs (Or.inr c)⟩
  have hni : h ∉ R \ insert h S := by simp
  rw [he, Finset.card_insert_of_not_mem hni]

/-- The number of first-fresh occurrences is the number of distinct batch
hashes not already seen. -/
lemma firstFreshOccurrences_length (digest : String → String) :
    ∀ (items : List CollectedItem) (seen : List String),
      (firstFreshOccurrences digest seen items).length
        = ((items.map (hashOf digest)).toFinset \ seen.toFinset).card
  | [], seen => by simp [firstFreshOccurrences]
  | item :: rest, seen => by
      unfold firstFreshOccurrences
      by_cases hm : hashOf digest item ∈ seen
      · rw [if_pos hm, firstFreshOccurrences_length digest rest seen]
        simp only [List.map_cons, List.toFinset_cons]
        rw [Finset.insert_sdiff_of_mem _ (by simpa using hm)]
      · rw [if_neg hm]
        simp only [List.length_cons, List.map_cons, List.toFinset_cons,
          firstFreshOccurrences_length digest rest (hashOf digest item :: seen)]
        rw [card_insert_sdiff (by simpa using hm)]

lemma firstFreshOccurrences_all_fresh (digest : String → String) :
    ∀ (items : List CollectedItem) (seen : List String),
      (items.map (hashOf digest)).Nodup →
      (∀ i ∈ items, hashOf digest i ∉ seen) →
      firstFreshOccurrences digest seen items = items
  | [], _, _, _ => rfl
  | item :: rest, seen, hnd, hfresh => by
      unfold firstFreshOccurrences
      rw [if_neg (hfresh item (by simp))]
      simp only [List.map_cons, List.nodup_cons] at hnd
      rw [firstFreshOccurrences_all_fresh digest rest (hashOf digest item :: seen) hnd.2]
      intro i hi
      simp only [List.mem_cons]
      rintro (hc | hc)
      · exact hnd.1 (hc ▸ List.mem_map_of_mem (hashOf digest) hi)
      · exact hfresh i (List.mem_cons_of_mem _ hi) hc

lemma firstFreshOccurrences_all_seen (digest : String → String) :
    ∀ (items : List CollectedItem) (seen : List String),
      (∀ i ∈ items, hashOf digest i ∈ seen) →
      firstFreshOccurrences digest seen items = []
  | [], _, _ => rfl
  | item :: rest, seen, hseen => by
      unfold firstFreshOccurrences
      rw [if_pos (hseen item (by simp))]
      exact firstFreshOccurrences_all_seen digest rest seen
        (fun i hi => hseen i (List.mem_cons_of_mem _ hi))

/-! ## Concrete example data used by witnesses and counterexamples -/

/-- The identity digest: the theorems about `compute_hash` and
`store_snapshot` hold for an arbitrary digest function, and witnesses
instantiate it with the identity. -/
def idDigest : String → String := fun s => s

/-- A sample message payload. -/
def msgInvoice : Payload :=
  .cons "subject" (.str "Invoice")
    (.cons "from" (.str "a@x.com")
      (.cons "receivedDateTime" (.str "2024-01-01T00:00:00Z") .nil))

/-- A second sample message payload, with a different subject. -/
def msgReport : Payload :=
  .cons "subject" (.str "Report")
    (.cons "from" (.str "a@x.com")
      (.cons "receivedDateTime" (.str "2024-01-02T00:00:00Z") .nil))

/-- A collected record carrying `msgInvoice`. -/
def itemInvoice : CollectedItem :=
  { tenant := some "tenant1", user_principal := some "u@x.com"
    message_id := some "m1", message_json := msgInvoice }

/-- A collected record carrying `msgReport`. -/
def itemReport : CollectedItem :=
  { tenant := some "tenant1", user_principal := some "u@x.com"
    message_id := some "m2", message_json := msgReport }

/-- The empty store. -/
def db0 : DbState := {}

/-- Same six identity fields as `msgInvoice`, but with the keys in a
different order and an extra peripheral field. -/
def msgInvoiceReordered : Payload :=
  .cons "from" (.str "a@x.com")
    (.cons "isRead" (.bool true)
      (.cons "receivedDateTime" (.str "2024-01-01T00:00:00Z")
        (.cons "subject" (.str "Invoice") .nil)))

/-! ## Claim theorems: hashing and persistence -/

/-- C2 — Hash determinism: any two message payloads that agree on the six
identity fields `subject, from, to, cc, bcc, receivedDateTime` (as read by
`dict.get`, so regardless of key order and of any other fields) get the same
`compute_hash`, for every digest function (in particular SHA-256). -/
theorem compute_hash_deterministic (digest : String → String) (a b : Payload)
    (h : ∀ k ∈ hashKeys, pyGet a k = pyGet b k) :
    compute_hash digest a = compute_hash digest b := by
  have h1 := h "subject" (by simp [hashKeys])
  have h2 := h "from" (by simp [hashKeys])
  have h3 := h "to" (by simp [hashKeys])
  have h4 := h "cc" (by simp [hashKeys])
  have h5 := h "bcc" (by simp [hashKeys])
  have h6 := h "receivedDateTime" (by simp [hashKeys])
  unfold compute_hash reducedRecord
  rw [h1, h2, h3, h4, h5, h6]

/-- Witness for C2 at concrete payloads differing in key order and
peripheral fields. -/
theorem compute_hash_deterministic_witness :
    (∀ k ∈ hashKeys, pyGet msgInvoice k = pyGet msgInvoiceReordered k) ∧
      compute_hash idDigest msgInvoice = compute_hash idDigest msgInvoiceReordered :=
  ⟨by decide, compute_hash_deterministic idDigest msgInvoice msgInvoiceReordered (by decide)⟩

/-- C1 — Global dedup idempotence: a batch of pairwise-distinct-hash records,
none already present, inserts all of them on the first `store_snapshot` call,
none on the second, and contributes exactly `collected.length` message rows in
total (for an initially empty store, the row total is exactly `N`). -/
theorem store_snapshot_dedup_idempotent (digest : String → String)
    (label₁ label₂ : Option String) (collected : List CollectedItem) (s : DbState)
    (hnodup : (collected.map (hashOf digest)).Nodup)
    (hfresh : ∀ item ∈ collected,
      hashOf digest item ∉ s.messages.map (fun r => r.message_hash)) :
    (store_snapshot digest label₁ collected s).inserted = collected.length ∧
    (store_snapshot digest label₂ collected
        (store_snapshot digest label₁ collected s).db).inserted = 0 ∧
    (store_snapshot digest label₂ collected
        (store_snapshot digest label₁ collected s).db).db.messages.length
      = s.messages.length + collected.length := by
  have hff₁ : firstFreshOccurrences digest (s.messages.map (fun r => r.message_hash)) collected
      = collected :=
    firstFreshOccurrences_all_fresh digest collected _ hnodup hfresh
  have e₁ : store_snapshot digest label₁ collected s =
      { db := { nextSnapshotId := s.nextSnapshotId + 1
                snapshots := s.snapshots ++ [⟨s.nextSnapshotId, label₁⟩]
                messages := s.messages ++ collected.map
                  (fun i => mkRow s.nextSnapshotId (hashOf digest i) i) }
        snapshot_id := s.nextSnapshotId
        inserted := collected.length } := by
    unfold store_snapshot
    rw [storeLoop_spec, hff₁]
    simp [List.length_map]
  refine ⟨by rw [e₁], ?_, ?_⟩ <;>
  · rw [e₁]
    have hseen : ∀ i ∈ collected, hashOf digest i ∈
        (s.messages ++ collected.map (fun j => mkRow s.nextSnapshotId (hashOf digest j) j)).map
          (fun r => r.message_hash) := by
      intro i hi
      rw [List.map_append, map_hash_mkRow]
      exact List.mem_append_right _ (List.mem_map_of_mem _ hi)
    have hff₂ := firstFreshOccurrences_all_seen digest collected
      ((s.messages ++ collected.map (fun j => mkRow s.nextSnapshotId (hashOf digest j) j)).map
        (fun r => r.message_hash)) hseen
    unfold store_snapshot
    rw [storeLoop_spec, hff₂]
    simp

/-- Witness for C1: two fresh records with distinct hashes against the empty
store. -/
theorem store_snapshot_dedup_idempotent_witness :
    (([itemInvoice, itemReport].map (hashOf idDigest)).Nodup ∧
      (∀ item ∈ [itemInvoice, itemReport],
        hashOf idDigest item ∉ db0.messages.map (fun r => r.message_hash))) ∧
    (store_snapshot idDigest (some "first") [itemInvoice, itemReport] db0).inserted = 2 ∧
    (store_snapshot idDigest (some "second") [itemInvoice, itemReport]
        (store_snapshot idDigest (some "first") [itemInvoice, itemReport] db0).db).inserted = 0 ∧
    (store_snapshot idDigest (some "second") [itemInvoice, itemReport]
        (store_snapshot idDigest (some "first") [itemInvoice, itemReport] db0).db).db.messages.length
      = db0.messages.length + 2 :=
  ⟨⟨by decide, by decide⟩,
    store_snapshot_dedup_idempotent idDigest (some "first") (some "second")
      [itemInvoice, itemReport] db0 (by decide) (by decide)⟩

/-- C8 — Exactly one snapshot row per persist call: `store_snapshot` appends
exactly one `Snapshot` row carrying the given label (possibly null), for every
batch — including an all-duplicate batch with `inserted = 0`, since the
snapshot insert (`db.py`, lines 100–102) runs before the dedup loop and is
unconditional. -/
theorem store_snapshot_one_snapshot_row (digest : String → String)
    (label : Option String) (collected : List CollectedItem) (s : DbState) :
    (store_snapshot digest label collected s).db.snapshots
        = s.snapshots ++ [⟨s.nextSnapshotId, label⟩] ∧
    (store_snapshot digest label collected s).db.snapshots.length
        = s.snapshots.length + 1 := by
  constructor <;> simp [store_snapshot]

/-- C10 — Within-batch deduplication: the rows a `store_snapshot` call creates
are exactly the first-fresh occurrences of each hash (later records with an
already-used hash are skipped), and `inserted` equals the number of distinct
batch hashes not already present in the store before the call. -/
theorem store_snapshot_within_batch_dedup (digest : String → String)
    (label : Option String) (collected : List CollectedItem) (s : DbState) :
    (store_snapshot digest label collected s).db.messages
        = s.messages ++
          (firstFreshOccurrences digest (s.messages.map (fun r => r.message_hash)) collected).map
            (fun i => mkRow s.nextSnapshotId (hashOf digest i) i) ∧
    (store_snapshot digest label collected s).inserted
        = ((collected.map (hashOf digest)).toFinset \
            (s.messages.map (fun r => r.message_hash)).toFinset).card := by
  constructor
  · unfold store_snapshot
    rw [storeLoop_spec]
  · unfold store_snapshot
    rw [storeLoop_spec]
    simp only
    rw [firstFreshOccurrences_length]
    simp

/-- C3 — What the code actually does on a uniqueness violation: a hash
committed by a concurrent session between the existence check and the insert
makes `store_snapshot` raise (there is no `try/except` around the insert at
`db.py`, lines 126–144), aborting the whole persist call instead of skipping
the record. -/
theorem store_snapshot_race_raises :
    store_snapshot_concurrent idDigest none [itemInvoice]
        (fun _ => [hashOf idDigest itemInvoice]) db0
      = .error uqViolationMsg := by
  rfl

/-! ## Mailbox pagination (`main.py`, `backup_mailbox`, lines 105–168)

The remote message listing is modelled positionally: the server holds a fixed
ordered list of items (identified by their 1-based position) and serves
`min($top, cap)` of them per request, where `cap` is the server-enforced
maximum page size (the remote API may return fewer items than requested).  A
request URL is either a fresh listing (`...messages?$top=n`, as built by the
code) or a server-issued `@odata.nextLink`, which continues at the next
offset with the same page size.  The code never inspects the inside of a
`nextLink`; whenever it builds a URL itself, that URL is a fresh
`.top` listing — exactly what the string rewrite at `main.py`, line 165,
produces, since it carries no continuation token.  Per-message side fetches
(JSON file write, raw MIME, attachments) do not affect which items are
collected and are not modelled; `requests` counts listing-page requests. -/

/-- A message-listing request URL. -/
inductive Url where
  | top (n : Nat)
  | next (offset : Nat) (n : Nat)
deriving DecidableEq

/-- The remote mailbox listing: the available items (in listing order) and
the server's maximum page size (`cap ≥ 1` for a sane server). -/
structure Listing where
  items : List Nat
  cap : Nat
deriving DecidableEq

/-- Serve one page starting at `offset` with requested size `n`, returning
the page and the `@odata.nextLink` (present iff items remain). -/
def servePage (srv : Listing) (offset n : Nat) : List Nat × Option Url :=
  let page := (srv.items.drop offset).take (min n srv.cap)
  (page,
    if offset + page.length < srv.items.length
    then some (.next (offset + page.length) n) else none)

/-- One GET against the listing. -/
def fetchPage (srv : Listing) : Url → List Nat × Option Url
  | .top n => servePage srv 0 n
  | .next offset n => servePage srv offset n

/-- The `for msg in data.get("value", [])` body (`main.py`, lines 123–156):
save the message, count it, collect it, and — only when
`download_attachments` is set — check the quota and exit the page early once
`downloaded >= mails_per_user`.  Returns
`(collected, downloaded, earlyExit)`. -/
def processPage (quota : Option Nat) (da : Bool) :
    List Nat → List Nat → Nat → List Nat × Nat × Bool
  | [], coll, dl => (coll, dl, false)
  | m :: rest, coll, dl =>
      if da then
        match quota with
        | some q =>
            if q ≤ dl + 1 then (coll ++ [m], dl + 1, true)
            else processPage quota da rest (coll ++ [m]) (dl + 1)
        | none => processPage quota da rest (coll ++ [m]) (dl + 1)
      else processPage quota da rest (coll ++ [m]) (dl + 1)

/-- The `while url:` loop of `backup_mailbox` (`main.py`, lines 117–166).
After an early exit the loop ends (`url = None; break`); otherwise the next
URL is the server's `nextLink`, except that with a bounded quota the loop
terminates when `left = mails_per_user - downloaded <= 0` and rewrites the
URL to the fresh listing `...messages?$top=left` when `left < page_size`
(line 165 — note the rewrite drops the server's continuation token).
`fuel` bounds the number of iterations; it only matters for runs that Python
itself would not terminate (e.g. a server that forever serves empty pages
with a continuation), and every claim below is evaluated on runs that finish
well within the supplied fuel. -/
def backupLoop (srv : Listing) (quota : Option Nat) (da : Bool) (pageSize : Nat) :
    Nat → Option Url → List Nat → Nat → Nat → List Nat × Nat
  | 0, _, coll, _, reqs => (coll, reqs)
  | _ + 1, none, coll, _, reqs => (coll, reqs)
  | fuel + 1, some url, coll, dl, reqs =>
      match fetchPage srv url with
      | (page, nxt) =>
        match processPage quota da page coll dl with
        | (collOut, dlOut, early) =>
          if early then (collOut, reqs + 1)
          else
            match nxt, quota with
            | none, _ => (collOut, reqs + 1)
            | some nurl, none =>
                backupLoop srv quota da pageSize fuel (some nurl) collOut dlOut (reqs + 1)
            | some nurl, some q =>
                if q ≤ dlOut then (collOut, reqs + 1)
                else if q - dlOut < pageSize then
                  backupLoop srv quota da pageSize fuel (some (.top (q - dlOut)))
                    collOut dlOut (reqs + 1)
                else
                  backupLoop srv quota da pageSize fuel (some nurl) collOut dlOut (reqs + 1)

/-- Result of one `backup_mailbox` run: the collected items (in collection
order) and the number of listing-page requests issued. -/
structure MailboxRun where
  collected : List Nat
  requests : Nat
deriving DecidableEq

/-- The function `backup_mailbox` (`main.py`, lines 105–168): initial page size is
`100 if (remaining is None or remaining > 100) else remaining`, the first
request is `...messages?$top=page_size`, then the loop above. -/
def backup_mailbox (srv : Listing) (mails_per_user : Option Nat)
    (download_attachments : Bool) : MailboxRun :=
  let pageSize := match mails_per_user with
    | none => 100
    | some q => if 100 < q then 100 else q
  let fuel := srv.items.length + (match mails_per_user with | some q => q | none => 0) + 2
  let r := backupLoop srv mails_per_user download_attachments pageSize fuel
    (some (.top pageSize)) [] 0 0
  { collected := r.1, requests := r.2 }

/-! ## Claim theorems: pagination -/

/-- C4 — what the code actually does in the quota-truncation scenario
(quota 3, server pages of 2, five items available): since the `$top` rewrite
at `main.py`, line 165, drops the server's continuation token, the second
request restarts the listing from the beginning, and the run collects items
1, 2, 1 — not 1, 2, 3 — in two requests, whether or not attachments are
downloaded.  Item 3 is never collected and item 1 is collected twice. -/
theorem backup_mailbox_quota3_pages2_eval :
    backup_mailbox ⟨[1, 2, 3, 4, 5], 2⟩ (some 3) true = ⟨[1, 2, 1], 2⟩ ∧
    backup_mailbox ⟨[1, 2, 3, 4, 5], 2⟩ (some 3) false = ⟨[1, 2, 1], 2⟩ := by
  constructor <;> rfl

set_option maxRecDepth 4000

/-- C5 — quota exactness fails: two runs with `M ≤ K` available items in
which the dropped continuation token makes the collector re-fetch from the
start.  With quota 3 against a 3-item listing served in pages of 2, the run
yields items 1, 2, 1 (item 3 never, item 1 twice); with quota 150 against a
150-item listing whose server honours the requested page size in full, the
run yields items 1–100 followed by items 1–50 again (items 101–150 never). -/
theorem backup_mailbox_quota_exactness_eval :
    backup_mailbox ⟨[1, 2, 3], 2⟩ (some 3) true = ⟨[1, 2, 1], 2⟩ ∧
    backup_mailbox ⟨List.range' 1 150, 150⟩ (some 150) false
      = ⟨List.range' 1 100 ++ List.range' 1 50, 2⟩ := by
  constructor
  · rfl
  · decide

/-! ## Per-tenant collection (`main.py`, `backup_tenant`, lines 170–218) and
the batch trigger (`web.py`, `trigger_backup`, lines 130–191)

`backup_tenant`'s collaborators are modelled by their outcomes: the MSAL
token call either returns a token or raises (`Except.error`), the user
listing either succeeds with a user list or returns a non-200 page, the
mailbox probe answers a boolean, and each user's `backup_mailbox` call
either returns that user's collected records or raises. -/

/-- One enumerated user, as `backup_tenant` observes it: the
`has_mailbox` probe result (`main.py`, line 208) and the outcome of
`backup_mailbox` for the user (`.error` = an exception, which `main.py`,
lines 213–214, catches and logs). -/
structure UserEnv where
  hasMailbox : Bool
  run : Except String (List CollectedItem)

/-- One tenant, as `backup_tenant` observes it: whether `client_id`,
`client_secret` and `tenant_id` are all present (line 175), the
`get_token_for_tenant` outcome (`.error` = the call raised; lines 182–186
catch it), and the user-listing outcome (`.error` = a non-200 response;
lines 197–200 return `[]` for it). -/
structure TenantEnv where
  hasCreds : Bool
  token : Except String String
  users : Except String (List UserEnv)

/-- The function `backup_tenant` (`main.py`, lines 170–218): missing credentials, a token
acquisition failure or a user-listing failure yield the empty result without
raising; otherwise each mailbox-bearing user's results are appended, with
per-user exceptions swallowed. -/
def backup_tenant (env : TenantEnv) : List CollectedItem :=
  if env.hasCreds = false then []
  else
    match env.token with
    | .error _ => []
    | .ok _ =>
      match env.users with
      | .error _ => []
      | .ok users =>
          users.foldl (fun acc u =>
            if u.hasMailbox then
              match u.run with
              | .ok msgs => acc ++ msgs
              | .error _ => acc
            else acc) []

/-- The concatenation of all tenants' collected messages, as accumulated by
the `for tenant in tenants` loop of `trigger_backup` (`web.py`,
lines 152–170). -/
def collectedBatch (tenants : List TenantEnv) : List CollectedItem :=
  (tenants.map backup_tenant).flatten

/-- The JSON body `trigger_backup` responds with (only the fields a claim
inspects; the per-tenant result entries are reduced to their
`messages_collected` counts — in this model `backup_tenant` never raises, so
every entry has status `success`). -/
inductive TriggerResponse where
  | noTenants
  | noMessages (tenantCounts : List Nat)
  | success (snapshot_id : Nat) (inserted : Nat) (total : Nat) (tenantCounts : List Nat)
deriving DecidableEq

/-- A `trigger_backup` run: the store after the call and the response. -/
structure TriggerRun where
  db : DbState
  response : TriggerResponse

/-- The endpoint `trigger_backup` (`web.py`, lines 130–191): error out when no tenants are
configured, collect every tenant (each isolated by its own `try/except`),
and — only when anything was collected — persist one snapshot labelled
`label or 'manual-web'`. -/
def trigger_backup (digest : String → String) (tenants : List TenantEnv)
    (label : Option String) (s : DbState) : TriggerRun :=
  if tenants.isEmpty then ⟨s, .noTenants⟩
  else if (collectedBatch tenants).isEmpty then
    ⟨s, .noMessages (tenants.map (fun t => (backup_tenant t).length))⟩
  else
    { db := (store_snapshot digest
        (some (match label with
               | some l => if l = "" then "manual-web" else l
               | none => "manual-web"))
        (collectedBatch tenants) s).db
      response := .success
        (store_snapshot digest
          (some (match label with
                 | some l => if l = "" then "manual-web" else l
                 | none => "manual-web"))
          (collectedBatch tenants) s).snapshot_id
        (store_snapshot digest
          (some (match label with
                 | some l => if l = "" then "manual-web" else l
                 | none => "manual-web"))
          (collectedBatch tenants) s).inserted
        (collectedBatch tenants).length
        (tenants.map (fun t => (backup_tenant t).length)) }

/-! ## Claim theorems: tenant isolation -/

/-- C7 — Auth-failure isolation: a tenant whose token acquisition raises
contributes the empty result (and `backup_tenant` returns it instead of
raising, by its `try/except` at `main.py`, lines 182–186), and a batch run
through the web trigger persists exactly what it would have persisted without
the failing tenant — the other tenants' messages are all still collected and
stored. -/
theorem backup_tenant_auth_failure_isolated (digest : String → String) (e : String)
    (bad : TenantEnv) (pre post : List TenantEnv) (label : Option String) (s : DbState)
    (htoken : bad.token = .error e) :
    backup_tenant bad = [] ∧
    collectedBatch (pre ++ bad :: post) = collectedBatch (pre ++ post) ∧
    (trigger_backup digest (pre ++ bad :: post) label s).db
      = (trigger_backup digest (pre ++ post) label s).db := by
  have hbad : backup_tenant bad = [] := by
    unfold backup_tenant
    by_cases hc : bad.hasCreds = false
    · rw [if_pos hc]
    · rw [if_neg hc, htoken]
  have hbatch : collectedBatch (pre ++ bad :: post) = collectedBatch (pre ++ post) := by
    unfold collectedBatch
    simp [hbad]
  refine ⟨hbad, hbatch, ?_⟩
  unfold trigger_backup
  rw [hbatch]
  rcases pre with _ | ⟨p, pre⟩
  · rcases post with _ | ⟨q, post⟩
    · simp [collectedBatch, hbad]
    · simp only [List.nil_append, List.isEmpty_cons, Bool.false_eq_true, if_false]
      split_ifs <;> rfl
  · simp only [List.cons_append, List.isEmpty_cons, Bool.false_eq_true, if_false]
    split_ifs <;> rfl

/-- A tenant whose token acquisition raises. -/
def authFailTenant : TenantEnv :=
  { hasCreds := true, token := .error "AuthError: invalid_client", users := .ok [] }

/-- A healthy tenant with one mailbox-bearing user. -/
def okTenant : TenantEnv :=
  { hasCreds := true, token := .ok "token"
    users := .ok [{ hasMailbox := true, run := .ok [itemInvoice] }] }

/-- Witness for C7: one healthy tenant plus one auth-failing tenant. -/
theorem backup_tenant_auth_failure_isolated_witness :
    (authFailTenant.token = Except.error "AuthError: invalid_client") ∧
    (backup_tenant authFailTenant = [] ∧
      collectedBatch ([okTenant] ++ authFailTenant :: []) = collectedBatch ([okTenant] ++ []) ∧
      (trigger_backup idDigest ([okTenant] ++ authFailTenant :: []) none db0).db
        = (trigger_backup idDigest ([okTenant] ++ []) none db0).db) :=
  ⟨rfl, backup_tenant_auth_failure_isolated idDigest "AuthError: invalid_client"
    authFailTenant [okTenant] [] none db0 rfl⟩

/-! ## Asynchronous task lifecycle (`tasks.py`, `backup_tenant_async`)

`backup_tenant_async` is declared with
`@celery_app.task(bind=True, autoretry_for=(Exception,),
retry_kwargs={'max_retries': 3, 'countdown': 60})` (`tasks.py`, line 44) and
`task_track_started=True` (line 32).  Its body wraps all work in a
`try/except` that, on any exception, calls
`self.update_state(state='FAILURE', ...)` and re-raises (lines 105–111).
Per Celery's documented semantics for `autoretry_for`, the re-raised
exception is caught by the decorator: while fewer than `max_retries` retries
have been used, the task is scheduled again (backend state `RETRY`, then a
fresh attempt); once retries are exhausted the exception is final and the
backend keeps `FAILURE`.  The backend state sequence a poller can observe is
modelled below as a function of which attempts raise. -/

/-- Celery task states observable through the result backend. -/
inductive TState where
  | PENDING
  | STARTED
  | PROGRESS
  | RETRY
  | SUCCESS
  | FAILURE
deriving DecidableEq

/-- Backend states during one execution attempt of `backup_tenant_async`:
`STARTED` (from `task_track_started`), the `PROGRESS` updates at lines 60–63
and 68–71, then either the return value (`SUCCESS`) or the explicit
`update_state(state='FAILURE', ...)` of the `except` block before the
re-raise.  (A failing attempt is modelled as raising in the store phase,
after both `PROGRESS` updates; raising earlier only drops `PROGRESS`
entries and changes nothing about the terminal-state question.) -/
def attemptStates (failing : Bool) : List TState :=
  if failing then [.STARTED, .PROGRESS, .PROGRESS, .FAILURE]
  else [.STARTED, .PROGRESS, .PROGRESS, .SUCCESS]

/-- The `max_retries` value from the decorator at `tasks.py`, line 44. -/
def maxRetries : Nat := 3

/-- The backend state sequence from attempt number `attempt` on, with
`left` retries still available: a raising attempt ends in the explicitly set
`FAILURE`, followed — while retries remain — by `RETRY` and the next
attempt. -/
def retryTrace (outcomes : Nat → Bool) : Nat → Nat → List TState
  | 0, attempt => attemptStates (outcomes attempt)
  | left + 1, attempt =>
      if outcomes attempt then
        attemptStates true ++ [.RETRY] ++ retryTrace outcomes left (attempt + 1)
      else attemptStates false

/-- The full observable state sequence of one submitted
`backup_tenant_async` task, given which attempts raise (`outcomes i = true`
means attempt `i` raises): `PENDING` at submission, then the attempts under
the decorator's retry policy. -/
def taskTrace (outcomes : Nat → Bool) : List TState :=
  .PENDING :: retryTrace outcomes maxRetries 0

/-- C6 — what the code actually does when an attempt fails and a retry
remains: the task whose first attempt raises (and whose second attempt
succeeds) reports `FAILURE` (index 4 of its state sequence) and then
regresses to `RETRY`, `STARTED`, `PROGRESS` and finally `SUCCESS` —
`FAILURE` was observable but was not final. -/
theorem taskTrace_failure_then_progress_eval :
    taskTrace (fun i => i == 0)
      = [.PENDING, .STARTED, .PROGRESS, .PROGRESS, .FAILURE, .RETRY,
         .STARTED, .PROGRESS, .PROGRESS, .SUCCESS] ∧
    (taskTrace (fun i => i == 0))[4]? = some .FAILURE ∧
    (taskTrace (fun i => i == 0))[7]? = some .PROGRESS ∧
    (taskTrace (fun i => i == 0))[9]? = some .SUCCESS :=
  ⟨rfl, rfl, rfl, rfl⟩

/-! ## Task status endpoints (`web.py`)

`get_backup_status` (lines 333–379) and the event stream of
`stream_backup_status` (lines 382–447) build their JSON payloads from an
`AsyncResult`; the aspects of that object they read are modelled by
`TaskView`: the state, the meta dict `task.info` (used by the `PROGRESS`
branch), `str(task.info)` (used by the `FAILURE` branch) and `task.result`
(used by the `SUCCESS` branch).  Payloads are JSON `Value`s; each branch
builds its dict with a fixed key set and order, so `Value` equality
coincides with Python dict equality on these payloads. -/

/-- The Celery states distinguished by the status endpoints. -/
inductive CeleryState where
  | PENDING
  | PROGRESS
  | SUCCESS
  | FAILURE
  | other (s : String)
deriving DecidableEq

/-- What the status endpoints read off an `AsyncResult`. -/
structure TaskView where
  state : CeleryState
  info : Fields
  infoStr : String
  result : Value
deriving DecidableEq

/-- The endpoint `get_backup_status` (`web.py`, lines 333–379): the polled status payload,
a pure function of the task id and the backend state. -/
def get_backup_status (task_id : String) (t : TaskView) : Value :=
  match t.state with
  | .PENDING =>
      .obj (.cons "task_id" (.str task_id)
           (.cons "state" (.str "PENDING")
           (.cons "progress" (.int 0)
           (.cons "message" (.str "Task is waiting to be processed...") .nil))))
  | .PROGRESS =>
      .obj (.cons "task_id" (.str task_id)
           (.cons "state" (.str "PROGRESS")
           (.cons "progress" (fieldsGetD t.info "progress" (.int 0))
           (.cons "stage" (fieldsGetD t.info "stage" (.str "unknown"))
           (.cons "message" (fieldsGetD t.info "message" (.str "Processing...")) .nil)))))
  | .SUCCESS =>
      .obj (.cons "task_id" (.str task_id)
           (.cons "state" (.str "SUCCESS")
           (.cons "progress" (.int 100)
           (.cons "message" (.str "Backup completed successfully!")
           (.cons "result" t.result .nil)))))
  | .FAILURE =>
      .obj (.cons "task_id" (.str task_id)
           (.cons "state" (.str "FAILURE")
           (.cons "progress" (.int 0)
           (.cons "message" (.str ("Backup failed: " ++ t.infoStr))
           (.cons "error" (.str t.infoStr) .nil)))))
  | .other st =>
      .obj (.cons "task_id" (.str task_id)
           (.cons "state" (.str st)
           (.cons "progress" (.int 0)
           (.cons "message" (.str ("Unknown task state: " ++ st)) .nil))))

/-- The status payload built inside `stream_backup_status`'s event loop
(`web.py`, lines 393–430) — identical to the polled payload except for the
fallback message of the unknown-state branch. -/
def streamStatus (task_id : String) (t : TaskView) : Value :=
  match t.state with
  | .PENDING =>
      .obj (.cons "task_id" (.str task_id)
           (.cons "state" (.str "PENDING")
           (.cons "progress" (.int 0)
           (.cons "message" (.str "Task is waiting to be processed...") .nil))))
  | .PROGRESS =>
      .obj (.cons "task_id" (.str task_id)
           (.cons "state" (.str "PROGRESS")
           (.cons "progress" (fieldsGetD t.info "progress" (.int 0))
           (.cons "stage" (fieldsGetD t.info "stage" (.str "unknown"))
           (.cons "message" (fieldsGetD t.info "message" (.str "Processing...")) .nil)))))
  | .SUCCESS =>
      .obj (.cons "task_id" (.str task_id)
           (.cons "state" (.str "SUCCESS")
           (.cons "progress" (.int 100)
           (.cons "message" (.str "Backup completed successfully!")
           (.cons "result" t.result .nil)))))
  | .FAILURE =>
      .obj (.cons "task_id" (.str task_id)
           (.cons "state" (.str "FAILURE")
           (.cons "progress" (.int 0)
           (.cons "message" (.str ("Backup failed: " ++ t.infoStr))
           (.cons "error" (.str t.infoStr) .nil)))))
  | .other st =>
      .obj (.cons "task_id" (.str task_id)
           (.cons "state" (.str st)
           (.cons "progress" (.int 0)
           (.cons "message" (.str ("Task state: " ++ st)) .nil))))

/-- The error event yielded when reading the task state raises
(`web.py`, line 444). -/
def errEvent (e : String) : Value := .obj (.cons "error" (.str e) .nil)

/-- The `event_stream` loop of `stream_backup_status` (`web.py`,
lines 385–445), as a function of the successive task views the loop
observes (one per 1-second poll; `.error` = reading the state raised):
compute the status payload, yield it only when it differs from the last
yielded payload, and stop after a terminal state or an error event. -/
def eventStream (task_id : String) :
    List (Except String TaskView) → Option Value → List Value
  | [], _ => []
  | .error e :: _, _ => [errEvent e]
  | .ok v :: rest, last =>
      if some (streamStatus task_id v) = last then
        if v.state = .SUCCESS ∨ v.state = .FAILURE then []
        else eventStream task_id rest last
      else
        if v.state = .SUCCESS ∨ v.state = .FAILURE then [streamStatus task_id v]
        else streamStatus task_id v :: eventStream task_id rest (some (streamStatus task_id v))

/-- The endpoint `stream_backup_status` (`web.py`, lines 382–447): the events sent over
the SSE stream, starting with `last_state = None`. -/
def stream_backup_status (task_id : String)
    (views : List (Except String TaskView)) : List Value :=
  eventStream task_id views none

lemma errEvent_ne_streamStatus (e task_id : String) (w : TaskView) :
    errEvent e ≠ streamStatus task_id w := by
  cases hw : w.state <;> simp [errEvent, streamStatus, hw]

lemma eventStream_chain (task_id : String) :
    ∀ (views : List (Except String TaskView)) (last : Option TaskView),
      (eventStream task_id views (last.map (streamStatus task_id))).Chain'
        (fun a b => a ≠ b) ∧
      (∀ w p, last = some w →
        (eventStream task_id views (last.map (streamStatus task_id))).head? = some p →
        p ≠ streamStatus task_id w)
  | [], last => by simp [eventStream]
  | .error e :: rest, last => by
      refine ⟨by simp [eventStream], ?_⟩
      intro w p hw hp
      simp only [eventStream, List.head?_cons, Option.some.injEq] at hp
      exact hp ▸ errEvent_ne_streamStatus e task_id w
  | .ok v :: rest, last => by
      by_cases heq : some (streamStatus task_id v) = last.map (streamStatus task_id)
      · by_cases hterm : v.state = .SUCCESS ∨ v.state = .FAILURE
        · refine ⟨?_, ?_⟩
          · simp [eventStream, heq, hterm]
          · intro w p hw hp
            simp [eventStream, heq, hterm] at hp
        · have ih := eventStream_chain task_id rest last
          refine ⟨?_, ?_⟩
          · simpa [eventStream, heq, hterm] using ih.1
          · intro w p hw hp
            apply ih.2 w p hw
            simpa [eventStream, heq, hterm] using hp
      · have hne : ∀ w, last = some w → streamStatus task_id v ≠ streamStatus task_id w := by
          intro w hw hc
          exact heq (by simp [hw, hc])
        by_cases hterm : v.state = .SUCCESS ∨ v.state = .FAILURE
        · refine ⟨by simp [eventStream, heq, hterm], ?_⟩
          intro w p hw hp
          simp only [eventStream, if_neg heq, if_pos hterm, List.head?_cons,
            Option.some.injEq] at hp
          exact hp ▸ hne w hw
        · have ih := eventStream_chain task_id rest (some v)
          refine ⟨?_, ?_⟩
          · simp only [eventStream, if_neg heq, if_pos, hterm, if_false]
            rw [List.chain'_cons']
            refine ⟨?_, by simpa using ih.1⟩
            intro y hy
            have := ih.2 v y rfl (by simpa using hy)
            exact fun hc => this (hc ▸ rfl)
          · intro w p hw hp
            simp only [eventStream, if_neg heq, if_neg hterm, List.head?_cons,
              Option.some.injEq] at hp
            exact hp ▸ hne w hw

/-- C9 — Status-stream non-duplication: the push stream never emits two
identical payloads back-to-back (it emits only when the payload differs from
the previously emitted one), and the polled status is a pure function of the
task id and backend state, so two polls with no intervening task-state
transition observe identical payloads. -/
theorem status_stream_no_adjacent_duplicates (task_id : String)
    (views : List (Except String TaskView)) (v₁ v₂ : TaskView) (hv : v₁ = v₂) :
    (stream_backup_status task_id views).Chain' (fun a b => a ≠ b) ∧
    get_backup_status task_id v₁ = get_backup_status task_id v₂ :=
  ⟨(eventStream_chain task_id views none).1, by rw [hv]⟩

/-- A `PENDING` task view. -/
def pendingView : TaskView :=
  { state := .PENDING, info := .nil, infoStr := "None", result := .null }

/-- A `PROGRESS` task view with a concrete meta dict. -/
def progressView : TaskView :=
  { state := .PROGRESS
    info := .cons "progress" (.int 40)
             (.cons "stage" (.str "backing_up")
               (.cons "message" (.str "Backing up tenant") .nil))
    infoStr := "meta", result := .null }

/-- A `SUCCESS` task view with a concrete result. -/
def successView : TaskView :=
  { state := .SUCCESS, info := .nil, infoStr := "result"
    result := .obj (.cons "success" (.bool true) .nil) }

/-- A poll sequence in which the state is observed unchanged twice in a row
before progressing and finishing. -/
def demoViews : List (Except String TaskView) :=
  [.ok pendingView, .ok pendingView, .ok progressView, .ok successView]

/-- Witness for C9 at a concrete poll sequence with a repeated view. -/
theorem status_stream_no_adjacent_duplicates_witness :
    (progressView = progressView) ∧
    ((stream_backup_status "task-1" demoViews).Chain' (fun a b => a ≠ b) ∧
      get_backup_status "task-1" progressView = get_backup_status "task-1" progressView) :=
  ⟨rfl, status_stream_no_adjacent_duplicates "task-1" demoViews
    progressView progressView rfl⟩

end M365
